import Mathlib

/-
Verification of the lecture-attendance tracker (src/app.py) against its
natural-language specification.

The app is a single-file Streamlit program over a SQLite store with three
tables (students, lectures, attendances), an on-disk image store, and a
DeepFace-based face verifier.  We give a shallow embedding: the relational
store is lists of rows, the image store is an association list from path to
image bytes, the Streamlit session is an optional snapshot of a student row,
and the external collaborators (DeepFace, werkzeug password hashing) are
function parameters.  Each branch of the UI (Register, Login, Check-in,
Dashboard) becomes a Lean function from inputs and state to result and state,
following the source line by line.
-/

namespace ProjectSadiq

/-- Opaque image bytes; the embedding never inspects image contents. -/
abbrev Img := Nat

/-- Row of the students table (src/app.py lines 23-31).  The id column is the
INTEGER PRIMARY KEY AUTOINCREMENT surrogate key. -/
structure Student where
  id : Nat
  student_id : String
  name : String
  email : String
  password_hash : String
  face_path : String
  created_at : String
deriving DecidableEq, Repr

/-- Row of the lectures table (src/app.py lines 32-37). -/
structure Lecture where
  id : Nat
  lecture_code : String
  lecture_title : String
  date : String
deriving DecidableEq, Repr

/-- Row of the attendances table (src/app.py lines 38-44). -/
structure Attendance where
  id : Nat
  student_id : String
  lecture_id : Nat
  timestamp : String
deriving DecidableEq, Repr

/-- The relational store after init_db: the three tables plus the next value
of each AUTOINCREMENT counter (SQLite rowids start at 1). -/
structure DB where
  students : List Student
  lectures : List Lecture
  attendances : List Attendance
  nextStudentRowId : Nat
  nextLectureId : Nat
  nextAttendanceId : Nat
deriving DecidableEq, Repr

/-- The on-disk image store under DATA_DIR: an association list from file
path to image bytes; most recent write first. -/
abbrev ImageStore := List (String × Img)

/-- Durable write with overwrite semantics (last write wins): PIL img.save
on an existing path replaces the file. -/
def putImage (st : ImageStore) (k : String) (v : Img) : ImageStore :=
  (k, v) :: st.filter (fun e => e.1 ≠ k)

/-- Read a stored image by path; none models a missing file. -/
def getImage (st : ImageStore) (k : String) : Option Img :=
  (st.find? (fun e => e.1 = k)).map Prod.snd

/-- Whole program state: database, image files, and the Streamlit session
slot st.session_state.user, which holds a snapshot of the student row taken
at login time (src/app.py lines 64-66 and 112). -/
structure State where
  db : DB
  images : ImageStore
  user : Option Student
deriving DecidableEq, Repr

/-- Directory for face images (src/app.py line 9). -/
def DATA_DIR : String := "data"

/-- Path os.path.join(DATA_DIR, student_id + ".jpg") used by save_face
(src/app.py line 52). -/
def facePath (student_id : String) : String :=
  DATA_DIR ++ "/" ++ student_id ++ ".jpg"

/-- save_face (src/app.py lines 50-54): store the captured image under the
per-student path and return the path.  The RGB conversion does not affect
anything the spec talks about, so image bytes are carried through opaquely. -/
def save_face (images : ImageStore) (student_id : String) (image : Img) :
    String × ImageStore :=
  let path := facePath student_id
  (path, putImage images path image)

/-- The external DeepFace.verify capability on two decoded images: either a
result (verified flag and distance) or an exception (model failure, corrupt
image, ...).  Distances are rationals to stay exact. -/
abbrev DfOracle := Img → Img → Except Unit (Bool × ℚ)

/-- DeepFace.verify called on two file paths (src/app.py line 59): it raises
when either path does not resolve to a readable image, and otherwise defers
to the underlying model, which may itself fail. -/
def deepfaceVerify (oracle : DfOracle) (images : ImageStore)
    (img1_path img2_path : String) : Except Unit (Bool × ℚ) :=
  match getImage images img1_path, getImage images img2_path with
  | some i1, some i2 => oracle i1 i2
  | _, _ => Except.error ()

/-- verify_faces (src/app.py lines 57-62): call DeepFace.verify and on any
exception return (False, 1.0). -/
def verify_faces (oracle : DfOracle) (images : ImageStore)
    (registered_img new_img : String) : Bool × ℚ :=
  match deepfaceVerify oracle images registered_img new_img with
  | Except.ok r => r
  | Except.error _ => (false, 1)

/-- Outcome of the Register branch. -/
inductive RegisterResult where
  | fieldsMissing
  | registered
  | duplicateError
deriving DecidableEq, Repr

/-- Register branch (src/app.py lines 85-100).  The guard requires sid,
email, pw and the photo (name is not checked); save_face runs before the
INSERT; a UNIQUE violation on student_id or email raises IntegrityError,
reported as a duplicate, with the connection closed and no row inserted. -/
def register (hash : String → String) (s : State)
    (sid name email pw : String) (photo : Option Img) (now : String) :
    RegisterResult × State :=
  match photo with
  | none => (.fieldsMissing, s)
  | some img =>
    if sid = "" ∨ email = "" ∨ pw = "" then (.fieldsMissing, s)
    else
      let fp := save_face s.images sid img
      if s.db.students.any (fun st => st.student_id = sid ∨ st.email = email) then
        (.duplicateError, { s with images := fp.2 })
      else
        let row : Student :=
          ⟨s.db.nextStudentRowId, sid, name, email, hash pw, fp.1, now⟩
        (.registered,
          { s with
            images := fp.2
            db := { s.db with
                    students := s.db.students ++ [row]
                    nextStudentRowId := s.db.nextStudentRowId + 1 } })

/-- Outcome of the Login branch. -/
inductive LoginResult where
  | loggedIn
  | invalidCredentials
deriving DecidableEq, Repr

/-- Login branch (src/app.py lines 107-115): fetch the first student row with
the given email; on a password-hash match store the row in the session. -/
def login (chk : String → String → Bool) (s : State) (email pw : String) :
    LoginResult × State :=
  match s.db.students.find? (fun st => st.email = email) with
  | some row =>
    if chk row.password_hash pw then (.loggedIn, { s with user := some row })
    else (.invalidCredentials, s)
  | none => (.invalidCredentials, s)

/-- Outcome of the Check-in branch.  recorded is the success message,
alreadyCheckedIn the informational dedupe message, faceMismatch carries the
displayed distance, codeOrPhotoMissing is the input-guard error
(src/app.py line 128), notLoggedIn the warning at line 120. -/
inductive CheckInResult where
  | notLoggedIn
  | codeOrPhotoMissing
  | faceMismatch (distance : ℚ)
  | alreadyCheckedIn
  | recorded
deriving DecidableEq, Repr

/-- The lecture id the check-in branch resolves for a code against a given
database: the id of the first lectures row with that lecture_code, or the
next AUTOINCREMENT id when the row is about to be created lazily
(src/app.py lines 139-148). -/
def resolveLectureId (db : DB) (lec_code : String) : Nat :=
  match db.lectures.find? (fun l => l.lecture_code = lec_code) with
  | some l => l.id
  | none => db.nextLectureId

/-- Lecture resolution step of the check-in branch (src/app.py lines
139-148): fetch the first lectures row with the given code; when none
exists, insert one with the given title and the current date and read back
its rowid.  Returns the resolved lecture id and the updated database. -/
def findOrCreateLecture (db : DB) (lec_code lec_title today : String) :
    Nat × DB :=
  match db.lectures.find? (fun l => l.lecture_code = lec_code) with
  | some l => (l.id, db)
  | none =>
    (db.nextLectureId,
     { db with
       lectures := db.lectures ++
         [⟨db.nextLectureId, lec_code, lec_title, today⟩]
       nextLectureId := db.nextLectureId + 1 })

/-- Dedupe-then-insert step of the check-in branch (src/app.py lines
150-157): SELECT a prior attendances row for (student_id, lecture_id); when
one exists report the duplicate, otherwise INSERT a new row with the current
timestamp. -/
def recordAttendance (db : DB) (student_id : String) (lec_id : Nat)
    (now : String) : CheckInResult × DB :=
  match db.attendances.find?
      (fun a => a.student_id = student_id ∧ a.lecture_id = lec_id) with
  | some _ => (.alreadyCheckedIn, db)
  | none =>
    (.recorded,
      { db with
        attendances := db.attendances ++
          [⟨db.nextAttendanceId, student_id, lec_id, now⟩]
        nextAttendanceId := db.nextAttendanceId + 1 })

/-- Check-in branch (src/app.py lines 118-159), line by line: require a
logged-in session; require lecture code and photo; save the probe image
under student_id ++ "_probe"; verify the stored face path against the probe;
on mismatch report the distance; otherwise find-or-create the lecture row,
look up a prior attendance for (student_id, lecture_id), and either report
the duplicate or insert a new attendance row. -/
def check_in (oracle : DfOracle) (s : State)
    (lec_code lec_title : String) (photo : Option Img) (now today : String) :
    CheckInResult × State :=
  match s.user with
  | none => (.notLoggedIn, s)
  | some user =>
    match photo with
    | none => (.codeOrPhotoMissing, s)
    | some img =>
      if lec_code = "" then (.codeOrPhotoMissing, s)
      else
        let pp := save_face s.images (user.student_id ++ "_probe") img
        let v := verify_faces oracle pp.2 user.face_path pp.1
        if v.1 = false then (.faceMismatch v.2, { s with images := pp.2 })
        else
          let resolved := findOrCreateLecture s.db lec_code lec_title today
          let recorded := recordAttendance resolved.2 user.student_id resolved.1 now
          (recorded.1, { s with images := pp.2, db := recorded.2 })

/-- Row shape of the dashboard attendance query:
SELECT a.timestamp, s.student_id, s.name (src/app.py line 172). -/
structure AttendanceRow where
  timestamp : String
  student_id : String
  name : String
deriving DecidableEq, Repr

/-- SQLite orders TEXT values with the default BINARY collation: bytewise
comparison of the UTF-8 encodings, which on the underlying character lists is
the lexicographic order. -/
def charListLe : List Char → List Char → Bool
  | [], _ => true
  | _ :: _, [] => false
  | a :: as, b :: bs =>
    if a < b then true else if a = b then charListLe as bs else false

/-- ORDER BY comparison on TEXT columns (ISO timestamps and dates are stored
as TEXT, so their lexicographic order is their chronological order). -/
def textLe (s₁ s₂ : String) : Bool := charListLe s₁.data s₂.data

/-- The unsorted join
FROM attendances a JOIN students s ON s.student_id = a.student_id
WHERE lecture_id = ? (src/app.py lines 171-175): for each attendance row of
the lecture, one output row per matching student row (inner join). -/
def attendanceJoin (db : DB) (lec_id : Nat) : List AttendanceRow :=
  (db.attendances.filter (fun a => a.lecture_id = lec_id)).flatMap fun a =>
    (db.students.filter (fun st => st.student_id = a.student_id)).map fun st =>
      ⟨a.timestamp, st.student_id, st.name⟩

/-- Dashboard attendance listing (src/app.py lines 171-177): the join rows
ordered by a.timestamp ascending (ORDER BY a.timestamp; the TEXT timestamps
compare lexicographically). -/
def list_attendance (db : DB) (lec_id : Nat) : List AttendanceRow :=
  List.insertionSort (fun r₁ r₂ => textLe r₁.timestamp r₂.timestamp = true)
    (attendanceJoin db lec_id)

/-- Dashboard lecture listing (src/app.py line 165):
SELECT * FROM lectures ORDER BY date DESC. -/
def list_lectures (db : DB) : List Lecture :=
  List.insertionSort (fun l₁ l₂ => textLe l₂.date l₁.date = true) db.lectures

/-- Database right after init_db on a fresh file: three empty tables,
AUTOINCREMENT counters at 1. -/
def initDB : DB := ⟨[], [], [], 1, 1, 1⟩

/-- Fresh program state: empty database, empty data directory, nobody
logged in. -/
def initState : State := ⟨initDB, [], none⟩

/-- One public operation of the app, with its external collaborators
(password hashing, password check, DeepFace) and wall-clock inputs attached
to the step that uses them. -/
inductive Op where
  | register (hash : String → String) (sid name email pw : String)
      (photo : Option Img) (now : String)
  | login (chk : String → String → Bool) (email pw : String)
  | checkin (oracle : DfOracle) (lec_code lec_title : String)
      (photo : Option Img) (now today : String)
  | dashboard

/-- State transition of one operation.  The Dashboard branch
(src/app.py lines 161-182) only runs SELECT queries, so its transition is
the identity. -/
def applyOp (s : State) : Op → State
  | .register hash sid name email pw photo now =>
      (register hash s sid name email pw photo now).2
  | .login chk email pw => (login chk s email pw).2
  | .checkin oracle lc lt photo now today =>
      (check_in oracle s lc lt photo now today).2
  | .dashboard => s

/-- Run a sequence of public operations from a state. -/
def run (s : State) : List Op → State
  | [] => s
  | op :: ops => run (applyOp s op) ops

/-- The central invariant of the attendances table: at most one row per
(student_id, lecture_id) pair. -/
def AtMostOnePerPair (l : List Attendance) : Prop :=
  List.Pairwise
    (fun a b => ¬(a.student_id = b.student_id ∧ a.lecture_id = b.lecture_id)) l

/-- Column list of CREATE TABLE attendances (src/app.py lines 38-44),
transcribed from the DDL. -/
def attendancesColumns : List String :=
  ["id", "student_id", "lecture_id", "timestamp"]

/-- The UNIQUE constraints declared on the attendances table by the DDL in
init_db (src/app.py lines 38-44): each entry would be the column list of one
UNIQUE constraint.  The CREATE TABLE statement declares none. -/
def attendancesUniqueConstraints : List (List String) := []

/-- Kind of a SQL statement issued by the app. -/
inductive SqlKind where
  | select
  | insert
deriving DecidableEq, Repr

/-- The statements the check-in dedupe step issues against the attendances
table, in program order (src/app.py lines 150-157): a SELECT for a prior
row, then, when none was found, a separate INSERT. -/
def checkInDedupeSql : List (SqlKind × String) :=
  [(.select, "attendances"), (.insert, "attendances")]

/-- Formalization of the mechanism demanded by the specification sentence
about step 3 of the ledger algorithm (atomic conditional insert: a unique
constraint on the pair backing the insert): the DDL declares a UNIQUE
constraint covering exactly the columns student_id and lecture_id of the
attendances table.  This definition follows the words of the spec, to be
compared with the transcription of the actual schema above. -/
def hasAtomicConditionalInsert : Prop :=
  ∃ cols ∈ attendancesUniqueConstraints,
    cols.Perm ["student_id", "lecture_id"]

/- Concrete fixtures used to instantiate the theorems below on closed
inputs. -/

/-- Stand-in for werkzeug generate_password_hash. -/
def hashFix : String → String := fun pw => "pbkdf2:" ++ pw

/-- Face model stub that accepts every pair of images with distance 0. -/
def verifierMatch : DfOracle := fun _ _ => Except.ok (true, 0)

/-- Face model stub that rejects every pair of images with distance 1. -/
def verifierMismatch : DfOracle := fun _ _ => Except.ok (false, 1)

/-- Face model stub whose embedding computation always fails. -/
def verifierCrash : DfOracle := fun _ _ => Except.error ()

/-- A registered student, as the row produced by registration. -/
def studentAlice : Student :=
  ⟨1, "S100", "Alice", "alice@x.com", hashFix "pw123", facePath "S100", "T0"⟩

/-- State with studentAlice registered, her face image stored, and her
session active. -/
def stateAlice : State :=
  ⟨⟨[studentAlice], [], [], 2, 1, 1⟩, [(facePath "S100", 7)], some studentAlice⟩

/-- State for the duplicate-registration scenario: studentAlice is
registered and nobody is logged in. -/
def stateDup : State :=
  ⟨⟨[studentAlice], [], [], 2, 1, 1⟩, [(facePath "S100", 7)], none⟩

/-- A student row whose face_path does not resolve to any stored image. -/
def studentGhost : Student :=
  ⟨1, "S1", "Gail", "g@x.com", hashFix "pw", facePath "S1", "T0"⟩

/-- State with studentGhost logged in but the image store missing the file
behind her face_path. -/
def stateMissingImage : State :=
  ⟨⟨[studentGhost], [], [], 2, 1, 1⟩, [], some studentGhost⟩

/-- State with studentGhost logged in and her face image present. -/
def stateImagePresent : State :=
  ⟨⟨[studentGhost], [], [], 2, 1, 1⟩, [(facePath "S1", 5)], some studentGhost⟩

/-- Database with one lecture and three check-ins whose TEXT timestamps are
strictly increasing, the attendance rows stored out of order. -/
def dbThreeCheckins : DB :=
  ⟨[⟨1, "S1", "Ann", "a@x", "h", "p1", "t"⟩,
    ⟨2, "S2", "Bob", "b@x", "h", "p2", "t"⟩,
    ⟨3, "S3", "Cal", "c@x", "h", "p3", "t"⟩],
   [⟨1, "CS101", "Intro", "2025-09-05"⟩],
   [⟨2, "S2", 1, "2025-09-05T09:01"⟩,
    ⟨1, "S1", 1, "2025-09-05T09:00"⟩,
    ⟨3, "S3", 1, "2025-09-05T09:02"⟩], 4, 2, 4⟩

/-- Database with three lectures on distinct dates, stored out of order. -/
def dbThreeLectures : DB :=
  ⟨[],
   [⟨1, "A", "a", "2025-09-01"⟩,
    ⟨2, "B", "b", "2025-09-03"⟩,
    ⟨3, "C", "c", "2025-09-02"⟩], [], 1, 4, 1⟩

/- General lemmas about the embedded operations, shared by the claim
theorems below. -/

theorem putImage_putImage (st : ImageStore) (k : String) (v : Img) :
    putImage (putImage st k v) k v = putImage st k v := by
  simp [putImage, List.filter_filter]

theorem register_attendances (hash : String → String) (s : State)
    (sid name email pw : String) (photo : Option Img) (now : String) :
    (register hash s sid name email pw photo now).2.db.attendances =
      s.db.attendances := by
  unfold register
  cases photo <;> simp only
  · split
    · rfl
    · split <;> rfl

theorem login_db (chk : String → String → Bool) (s : State)
    (email pw : String) :
    (login chk s email pw).2.db = s.db := by
  unfold login
  obtain hfind | ⟨row, hfind⟩ := Option.eq_none_or_eq_some
    (List.find? (fun st => decide (st.email = email)) s.db.students)
  · simp [hfind]
  · simp only [hfind]
    split <;> rfl

theorem findOrCreateLecture_attendances (db : DB) (lc lt today : String) :
    (findOrCreateLecture db lc lt today).2.attendances = db.attendances := by
  unfold findOrCreateLecture
  split <;> rfl

theorem findOrCreateLecture_id (db : DB) (lc lt today : String) :
    (findOrCreateLecture db lc lt today).1 = resolveLectureId db lc := by
  unfold findOrCreateLecture resolveLectureId
  obtain hfind | ⟨l, hfind⟩ := Option.eq_none_or_eq_some
    (List.find? (fun l => decide (l.lecture_code = lc)) db.lectures) <;>
    simp [hfind]

theorem findOrCreateLecture_resolves (db : DB) (lc lt today : String) :
    ∃ l, (findOrCreateLecture db lc lt today).2.lectures.find?
        (fun l => l.lecture_code = lc) = some l ∧
      l.id = resolveLectureId db lc := by
  unfold findOrCreateLecture resolveLectureId
  obtain hfind | ⟨l, hfind⟩ := Option.eq_none_or_eq_some
    (List.find? (fun l => decide (l.lecture_code = lc)) db.lectures)
  · refine ⟨⟨db.nextLectureId, lc, lt, today⟩, ?_, by simp [hfind]⟩
    simp only [hfind]
    rw [List.find?_append, hfind]
    simp
  · exact ⟨l, by simp [hfind], by simp [hfind]⟩

theorem recordAttendance_new (db : DB) (sid : String) (lid : Nat)
    (now : String)
    (h : ∀ a ∈ db.attendances,
      ¬(a.student_id = sid ∧ a.lecture_id = lid)) :
    recordAttendance db sid lid now =
      (CheckInResult.recorded,
        { db with
          attendances := db.attendances ++ [⟨db.nextAttendanceId, sid, lid, now⟩]
          nextAttendanceId := db.nextAttendanceId + 1 }) := by
  unfold recordAttendance
  have hnone : List.find?
      (fun a => decide (a.student_id = sid ∧ a.lecture_id = lid))
      db.attendances = none := by
    rw [List.find?_eq_none]
    intro x hx
    simpa using h x hx
  simp only [hnone]

theorem recordAttendance_dup (db : DB) (sid : String) (lid : Nat)
    (now : String)
    (h : ∃ a ∈ db.attendances, a.student_id = sid ∧ a.lecture_id = lid) :
    recordAttendance db sid lid now = (CheckInResult.alreadyCheckedIn, db) := by
  unfold recordAttendance
  have hsome : (List.find?
      (fun a => decide (a.student_id = sid ∧ a.lecture_id = lid))
      db.attendances).isSome := by
    rw [List.find?_isSome]
    obtain ⟨a, ha, hp⟩ := h
    exact ⟨a, ha, by simpa using hp⟩
  obtain ⟨a, hfind⟩ := Option.isSome_iff_exists.mp hsome
  simp only [hfind]

theorem recordAttendance_preserves (db : DB) (sid : String) (lid : Nat)
    (now : String) (h : AtMostOnePerPair db.attendances) :
    AtMostOnePerPair (recordAttendance db sid lid now).2.attendances := by
  unfold recordAttendance
  obtain hdup | ⟨a, hdup⟩ := Option.eq_none_or_eq_some
    (List.find? (fun a => decide (a.student_id = sid ∧ a.lecture_id = lid))
      db.attendances)
  · simp only [hdup]
    unfold AtMostOnePerPair at h ⊢
    rw [List.pairwise_append]
    refine ⟨h, List.pairwise_singleton _ _, ?_⟩
    intro a ha b hb
    rw [List.mem_singleton] at hb
    subst hb
    rw [List.find?_eq_none] at hdup
    have := hdup a ha
    simp only [decide_eq_true_eq] at this
    simpa using this
  · simp only [hdup]
    exact h

theorem check_in_verified (oracle : DfOracle) (db : DB) (images : ImageStore)
    (u : Student) (lc lt : String) (img : Img) (now today : String)
    (hcode : lc ≠ "")
    (hv : (verify_faces oracle
        (putImage images (facePath (u.student_id ++ "_probe")) img)
        u.face_path (facePath (u.student_id ++ "_probe"))).1 = true) :
    check_in oracle ⟨db, images, some u⟩ lc lt (some img) now today =
      ((recordAttendance (findOrCreateLecture db lc lt today).2 u.student_id
          (findOrCreateLecture db lc lt today).1 now).1,
       ⟨(recordAttendance (findOrCreateLecture db lc lt today).2 u.student_id
          (findOrCreateLecture db lc lt today).1 now).2,
        putImage images (facePath (u.student_id ++ "_probe")) img,
        some u⟩) := by
  simp only [check_in, save_face]
  rw [if_neg hcode, if_neg (by simp [hv])]

theorem check_in_mismatch (oracle : DfOracle) (db : DB) (images : ImageStore)
    (u : Student) (lc lt : String) (img : Img) (now today : String)
    (hcode : lc ≠ "")
    (hv : (verify_faces oracle
        (putImage images (facePath (u.student_id ++ "_probe")) img)
        u.face_path (facePath (u.student_id ++ "_probe"))).1 = false) :
    check_in oracle ⟨db, images, some u⟩ lc lt (some img) now today =
      (CheckInResult.faceMismatch (verify_faces oracle
          (putImage images (facePath (u.student_id ++ "_probe")) img)
          u.face_path (facePath (u.student_id ++ "_probe"))).2,
       ⟨db, putImage images (facePath (u.student_id ++ "_probe")) img,
        some u⟩) := by
  simp only [check_in, save_face]
  rw [if_neg hcode, if_pos hv]

theorem check_in_preserves (oracle : DfOracle) (s : State)
    (lc lt : String) (photo : Option Img) (now today : String)
    (h : AtMostOnePerPair s.db.attendances) :
    AtMostOnePerPair
      (check_in oracle s lc lt photo now today).2.db.attendances := by
  obtain ⟨db, images, user⟩ := s
  cases user with
  | none => simpa [check_in] using h
  | some u =>
    cases photo with
    | none => simpa [check_in] using h
    | some img =>
      by_cases hcode : lc = ""
      · simpa [check_in, hcode] using h
      · by_cases hok : (verify_faces oracle
            (putImage images (facePath (u.student_id ++ "_probe")) img)
            u.face_path (facePath (u.student_id ++ "_probe"))).1 = false
        · rw [check_in_mismatch oracle db images u lc lt img now today hcode hok]
          exact h
        · rw [check_in_verified oracle db images u lc lt img now today hcode
            (by simpa using hok)]
          have h1 : AtMostOnePerPair
              (findOrCreateLecture db lc lt today).2.attendances := by
            rw [findOrCreateLecture_attendances]
            exact h
          exact recordAttendance_preserves _ _ _ _ h1

theorem applyOp_preserves (s : State) (op : Op)
    (h : AtMostOnePerPair s.db.attendances) :
    AtMostOnePerPair (applyOp s op).db.attendances := by
  cases op with
  | register hash sid name email pw photo now =>
    simpa [applyOp, register_attendances] using h
  | login chk email pw => simpa [applyOp, login_db] using h
  | checkin oracle lc lt photo now today =>
    exact check_in_preserves oracle s lc lt photo now today h
  | dashboard => simpa [applyOp] using h

theorem run_preserves (ops : List Op) (s : State)
    (h : AtMostOnePerPair s.db.attendances) :
    AtMostOnePerPair (run s ops).db.attendances := by
  induction ops generalizing s with
  | nil => simpa [run] using h
  | cons op ops ih => exact ih _ (applyOp_preserves s op h)


theorem findOrCreateLecture_found (db : DB) (lc lt today : String) (l : Lecture)
    (h : db.lectures.find? (fun l => l.lecture_code = lc) = some l) :
    findOrCreateLecture db lc lt today = (l.id, db) := by
  unfold findOrCreateLecture
  simp only [h]

theorem charListLe_total (as : List Char) :
    ∀ bs, charListLe as bs = true ∨ charListLe bs as = true := by
  induction as with
  | nil => intro bs; left; simp [charListLe]
  | cons a as ih =>
    intro bs
    cases bs with
    | nil => right; simp [charListLe]
    | cons b bs' =>
      rcases lt_trichotomy a b with h | h | h
      · left; simp [charListLe, h]
      · subst h
        rcases ih bs' with h' | h'
        · left; simp [charListLe, h', lt_irrefl]
        · right; simp [charListLe, h', lt_irrefl]
      · right; simp [charListLe, h]

theorem charListLe_trans (as : List Char) :
    ∀ bs cs, charListLe as bs = true → charListLe bs cs = true →
      charListLe as cs = true := by
  induction as with
  | nil => intro bs cs _ _; simp [charListLe]
  | cons a as ih =>
    intro bs cs h₁ h₂
    cases bs with
    | nil => simp [charListLe] at h₁
    | cons b bs' =>
      cases cs with
      | nil => simp [charListLe] at h₂
      | cons c cs' =>
        simp only [charListLe] at h₁ h₂ ⊢
        by_cases hab : a < b
        · by_cases hbc : b < c
          · simp [lt_trans hab hbc]
          · by_cases hbc' : b = c
            · subst hbc'; simp [hab]
            · simp [hbc, hbc'] at h₂
        · by_cases hab' : a = b
          · subst hab'
            by_cases hbc : a < c
            · simp [hbc]
            · by_cases hbc' : a = c
              · subst hbc'
                simp only [lt_irrefl, if_false, if_pos rfl] at h₁ h₂ ⊢
                exact ih _ _ h₁ h₂
              · simp [hbc, hbc'] at h₂
          · simp [hab, hab'] at h₁

theorem textLe_total (s₁ s₂ : String) :
    textLe s₁ s₂ = true ∨ textLe s₂ s₁ = true :=
  charListLe_total _ _

theorem textLe_trans (s₁ s₂ s₃ : String) (h₁ : textLe s₁ s₂ = true)
    (h₂ : textLe s₂ s₃ = true) : textLe s₁ s₃ = true :=
  charListLe_trans _ _ _ h₁ h₂


/-- C3: when the underlying face comparison fails, verify_faces returns
matched false with the sentinel maximal distance 1, and never lets the
exception reach its caller. -/
theorem verify_faces_fail_closed (oracle : DfOracle) (images : ImageStore)
    (p₁ p₂ : String)
    (h : deepfaceVerify oracle images p₁ p₂ = Except.error ()) :
    verify_faces oracle images p₁ p₂ = (false, 1) := by
  unfold verify_faces
  rw [h]

theorem verify_faces_fail_closed_witness :
    deepfaceVerify verifierCrash [("a", 1), ("b", 2)] "a" "b" =
        Except.error () ∧
    verify_faces verifierCrash [("a", 1), ("b", 2)] "a" "b" = (false, 1) :=
  ⟨rfl, verify_faces_fail_closed verifierCrash [("a", 1), ("b", 2)] "a" "b" rfl⟩

/-- C4: when the verifier reports no match, the check-in leaves the lectures
and attendances tables untouched. -/
theorem mismatch_leaves_ledger_unchanged (oracle : DfOracle) (s : State)
    (lc lt : String) (photo : Option Img) (now today : String)
    (hng : ∀ u img, s.user = some u → photo = some img →
        (verify_faces oracle
          (putImage s.images (facePath (u.student_id ++ "_probe")) img)
          u.face_path (facePath (u.student_id ++ "_probe"))).1 = false) :
    (check_in oracle s lc lt photo now today).2.db.lectures = s.db.lectures ∧
    (check_in oracle s lc lt photo now today).2.db.attendances =
      s.db.attendances := by
  obtain ⟨db, images, user⟩ := s
  cases user with
  | none => simp [check_in]
  | some u =>
    cases photo with
    | none => simp [check_in]
    | some img =>
      by_cases hcode : lc = ""
      · simp [check_in, hcode]
      · rw [check_in_mismatch oracle db images u lc lt img now today hcode
          (hng u img rfl rfl)]
        exact ⟨rfl, rfl⟩

theorem mismatch_leaves_ledger_unchanged_witness :
    (check_in verifierMismatch stateAlice "CS101" "Intro" (some 7) "T1"
        "D1").2.db.lectures = stateAlice.db.lectures ∧
    (check_in verifierMismatch stateAlice "CS101" "Intro" (some 7) "T1"
        "D1").2.db.attendances = stateAlice.db.attendances :=
  mismatch_leaves_ledger_unchanged verifierMismatch stateAlice "CS101" "Intro"
    (some 7) "T1" "D1"
    (by
      intro u img hu hi
      injection hu with h₁
      injection hi with h₂
      subst h₁
      subst h₂
      decide)

/-- C7: with an empty lecture code the check-in fails on the input guard,
changes nothing, and does not consult the verifier at all (the outcome is
the same for every oracle). -/
theorem empty_lecture_code_rejected (oracle₁ oracle₂ : DfOracle) (s : State)
    (u : Student) (lt : String) (photo : Option Img) (now today : String)
    (hu : s.user = some u) :
    check_in oracle₁ s "" lt photo now today =
      (CheckInResult.codeOrPhotoMissing, s) ∧
    check_in oracle₁ s "" lt photo now today =
      check_in oracle₂ s "" lt photo now today := by
  obtain ⟨db, images, user⟩ := s
  simp only at hu
  subst hu
  cases photo <;> simp [check_in]

theorem empty_lecture_code_rejected_witness :
    check_in verifierMatch stateAlice "" "Intro" (some 7) "T1" "D1" =
      (CheckInResult.codeOrPhotoMissing, stateAlice) ∧
    check_in verifierMatch stateAlice "" "Intro" (some 7) "T1" "D1" =
      check_in verifierMismatch stateAlice "" "Intro" (some 7) "T1" "D1" :=
  empty_lecture_code_rejected verifierMatch verifierMismatch stateAlice
    studentAlice "Intro" (some 7) "T1" "D1" rfl


/-- C5 counterexample: registering with the email of the already-registered
studentAlice under a fresh student id "S2" is rejected as a duplicate, yet
the store is changed: the face image was written under data/S2.jpg before
the INSERT failed, and no registered student references that image. -/
theorem duplicate_registration_orphans_image :
    (register hashFix stateDup "S2" "Bob" "alice@x.com" "pw9" (some 9)
        "T9").1 = RegisterResult.duplicateError ∧
    (register hashFix stateDup "S2" "Bob" "alice@x.com" "pw9" (some 9)
        "T9").2 ≠ stateDup ∧
    getImage (register hashFix stateDup "S2" "Bob" "alice@x.com" "pw9"
        (some 9) "T9").2.images (facePath "S2") = some 9 ∧
    ∀ st ∈ (register hashFix stateDup "S2" "Bob" "alice@x.com" "pw9" (some 9)
        "T9").2.db.students, st.face_path ≠ facePath "S2" := by
  decide

/-- C5 amended: a duplicate registration fails with the duplicate error and
inserts no student row, but the image store is updated first: the captured
face is written under the requested id before the uniqueness check. -/
theorem register_duplicate_writes_image_first (hash : String → String)
    (s : State) (sid name email pw : String) (img : Img) (now : String)
    (hsid : sid ≠ "") (hemail : email ≠ "") (hpw : pw ≠ "")
    (hdup : ∃ st ∈ s.db.students, st.student_id = sid ∨ st.email = email) :
    register hash s sid name email pw (some img) now =
      (RegisterResult.duplicateError,
        { s with images := putImage s.images (facePath sid) img }) := by
  simp only [register, save_face]
  rw [if_neg (by simp [hsid, hemail, hpw])]
  rw [if_pos (by
    rw [List.any_eq_true]
    obtain ⟨st, hst, hp⟩ := hdup
    exact ⟨st, hst, by simpa using hp⟩)]

theorem register_duplicate_writes_image_first_witness :
    ("S2" : String) ≠ "" ∧
    register hashFix stateDup "S2" "Bob" "alice@x.com" "pw9" (some 9) "T9" =
      (RegisterResult.duplicateError,
        { stateDup with images := putImage stateDup.images (facePath "S2") 9 }) :=
  ⟨by decide,
   register_duplicate_writes_image_first hashFix stateDup "S2" "Bob"
     "alice@x.com" "pw9" 9 "T9" (by decide) (by decide) (by decide)
     ⟨studentAlice, by decide, by decide⟩⟩

/-- C6 counterexample: with studentGhost logged in and the image behind her
face_path absent, check-in reports the ordinary face-mismatch outcome with
distance 1 (the catch-all in verify_faces absorbed the failure), the very
same result an ordinary rejection by the model produces when the image is
present; no distinct NotFound-style error exists. -/
theorem missing_image_same_as_mismatch :
    (check_in verifierMatch stateMissingImage "CS101" "Intro" (some 7) "T1"
        "D1").1 = CheckInResult.faceMismatch 1 ∧
    (check_in verifierMismatch stateImagePresent "CS101" "Intro" (some 7) "T1"
        "D1").1 = CheckInResult.faceMismatch 1 ∧
    getImage (putImage stateMissingImage.images
        (facePath (studentGhost.student_id ++ "_probe")) 7)
        studentGhost.face_path = none := by
  decide

/-- C6 amended: when the stored face reference resolves to no image at
verification time, the check-in fails closed: it reports a face mismatch
with sentinel distance 1 and does not touch the database; the absence is
absorbed by the verifier's catch-all, not raised as a distinct error. -/
theorem missing_face_image_fails_closed (oracle : DfOracle) (s : State)
    (u : Student) (lc lt : String) (img : Img) (now today : String)
    (hu : s.user = some u) (hcode : lc ≠ "")
    (hmiss : getImage
        (putImage s.images (facePath (u.student_id ++ "_probe")) img)
        u.face_path = none) :
    (check_in oracle s lc lt (some img) now today).1 =
      CheckInResult.faceMismatch 1 ∧
    (check_in oracle s lc lt (some img) now today).2.db = s.db := by
  obtain ⟨db, images, user⟩ := s
  simp only at hu hmiss
  subst hu
  have hvf : verify_faces oracle
      (putImage images (facePath (u.student_id ++ "_probe")) img)
      u.face_path (facePath (u.student_id ++ "_probe")) = (false, 1) := by
    unfold verify_faces deepfaceVerify
    rw [hmiss]
  rw [check_in_mismatch oracle db images u lc lt img now today hcode
    (by rw [hvf])]
  rw [hvf]
  exact ⟨rfl, rfl⟩

theorem missing_face_image_fails_closed_witness :
    getImage (putImage stateMissingImage.images
        (facePath (studentGhost.student_id ++ "_probe")) 7)
        studentGhost.face_path = none ∧
    (check_in verifierMatch stateMissingImage "CS101" "Intro" (some 7) "T1"
        "D1").1 = CheckInResult.faceMismatch 1 ∧
    (check_in verifierMatch stateMissingImage "CS101" "Intro" (some 7) "T1"
        "D1").2.db = stateMissingImage.db :=
  ⟨by decide,
   missing_face_image_fails_closed verifierMatch stateMissingImage
     studentGhost "CS101" "Intro" 7 "T1" "D1" rfl (by decide) (by decide)⟩

/-- C10: the registration guard does not check the name field, so a request
with empty name and the other fields present succeeds, and the inserted
student row carries the empty string as its name. -/
theorem register_allows_empty_name (hash : String → String) (s : State)
    (sid email pw : String) (img : Img) (now : String)
    (hsid : sid ≠ "") (hemail : email ≠ "") (hpw : pw ≠ "")
    (hnodup : ∀ st ∈ s.db.students, st.student_id ≠ sid ∧ st.email ≠ email) :
    register hash s sid "" email pw (some img) now =
      (RegisterResult.registered,
        { s with
          images := putImage s.images (facePath sid) img
          db := { s.db with
                  students := s.db.students ++
                    [⟨s.db.nextStudentRowId, sid, "", email, hash pw,
                      facePath sid, now⟩]
                  nextStudentRowId := s.db.nextStudentRowId + 1 } }) := by
  simp only [register, save_face]
  rw [if_neg (by simp [hsid, hemail, hpw])]
  rw [if_neg (by
    simp only [List.any_eq_true, not_exists]
    rintro st ⟨hst, hp⟩
    rcases (by simpa using hp : st.student_id = sid ∨ st.email = email) with
      h | h
    · exact (hnodup st hst).1 h
    · exact (hnodup st hst).2 h)]

theorem register_allows_empty_name_witness :
    ("S1" : String) ≠ "" ∧
    register hashFix initState "S1" "" "a@x" "pw" (some 3) "T0" =
      (RegisterResult.registered,
        { initState with
          images := putImage initState.images (facePath "S1") 3
          db := { initState.db with
                  students := initState.db.students ++
                    [⟨initState.db.nextStudentRowId, "S1", "", "a@x",
                      hashFix "pw", facePath "S1", "T0"⟩]
                  nextStudentRowId := initState.db.nextStudentRowId + 1 } }) :=
  ⟨by decide,
   register_allows_empty_name hashFix initState "S1" "a@x" "pw" 3 "T0"
     (by decide) (by decide) (by decide) (by simp [initState, initDB])⟩


/-- C1: with a logged-in student, a nonempty lecture code and a probe the
verifier accepts, checking in twice in sequence records attendance the
first time, reports the duplicate the second time, and leaves exactly one
attendances row for the pair of student and resolved lecture. -/
theorem check_in_twice_recorded_then_already (oracle : DfOracle) (s : State)
    (u : Student) (lec_code lt₁ lt₂ : String) (img : Img)
    (now₁ today₁ now₂ today₂ : String)
    (hu : s.user = some u) (hcode : lec_code ≠ "")
    (hv : (verify_faces oracle
        (putImage s.images (facePath (u.student_id ++ "_probe")) img)
        u.face_path (facePath (u.student_id ++ "_probe"))).1 = true)
    (hnew : ∀ a ∈ s.db.attendances,
        ¬(a.student_id = u.student_id ∧
          a.lecture_id = resolveLectureId s.db lec_code)) :
    (check_in oracle s lec_code lt₁ (some img) now₁ today₁).1 =
        CheckInResult.recorded ∧
    (check_in oracle (check_in oracle s lec_code lt₁ (some img) now₁ today₁).2
        lec_code lt₂ (some img) now₂ today₂).1 =
        CheckInResult.alreadyCheckedIn ∧
    ((check_in oracle (check_in oracle s lec_code lt₁ (some img) now₁ today₁).2
        lec_code lt₂ (some img) now₂ today₂).2.db.attendances.filter
      (fun a => a.student_id = u.student_id ∧
        a.lecture_id = resolveLectureId s.db lec_code)).length = 1 := by
  obtain ⟨db, images, user⟩ := s
  simp only at hu
  subst hu
  simp only at hv hnew ⊢
  rw [check_in_verified oracle db images u lec_code lt₁ img now₁ today₁ hcode hv]
  rcases hfc : findOrCreateLecture db lec_code lt₁ today₁ with ⟨lid, db₁⟩
  have hid : lid = resolveLectureId db lec_code := by
    have := findOrCreateLecture_id db lec_code lt₁ today₁
    rw [hfc] at this
    exact this
  have hatt : db₁.attendances = db.attendances := by
    have := findOrCreateLecture_attendances db lec_code lt₁ today₁
    rw [hfc] at this
    exact this
  obtain ⟨l₂, hfind₂, hid₂⟩ := findOrCreateLecture_resolves db lec_code lt₁ today₁
  rw [hfc] at hfind₂
  dsimp only at hfind₂ ⊢
  rw [recordAttendance_new db₁ u.student_id lid now₁
    (by rw [hatt, hid]; exact hnew)]
  refine ⟨rfl, ?_⟩
  rw [check_in_verified oracle _ _ u lec_code lt₂ img now₂ today₂ hcode
    (by rw [putImage_putImage]; exact hv)]
  have hfind₂' :
      ({ db₁ with
        attendances := db₁.attendances ++
          [⟨db₁.nextAttendanceId, u.student_id, lid, now₁⟩]
        nextAttendanceId := db₁.nextAttendanceId + 1 } : DB).lectures.find?
        (fun l => l.lecture_code = lec_code) = some l₂ := hfind₂
  rw [findOrCreateLecture_found _ lec_code lt₂ today₂ l₂ hfind₂']
  rw [recordAttendance_dup _ u.student_id l₂.id now₂
    ⟨⟨db₁.nextAttendanceId, u.student_id, lid, now₁⟩, by simp, rfl,
      by simp [hid₂, ← hid]⟩]
  refine ⟨rfl, ?_⟩
  simp only
  rw [hatt, List.filter_append,
    List.filter_eq_nil_iff.mpr (fun a ha => by simpa using hnew a ha)]
  simp [hid]

theorem check_in_twice_recorded_then_already_witness :
    stateAlice.user = some studentAlice ∧
    ("CS101" : String) ≠ "" ∧
    ((check_in verifierMatch stateAlice "CS101" "Intro" (some 7) "T1"
        "D1").1 = CheckInResult.recorded ∧
    (check_in verifierMatch
        (check_in verifierMatch stateAlice "CS101" "Intro" (some 7) "T1"
          "D1").2 "CS101" "Intro" (some 7) "T2" "D1").1 =
        CheckInResult.alreadyCheckedIn ∧
    ((check_in verifierMatch
        (check_in verifierMatch stateAlice "CS101" "Intro" (some 7) "T1"
          "D1").2 "CS101" "Intro" (some 7) "T2" "D1").2.db.attendances.filter
      (fun a => a.student_id = studentAlice.student_id ∧
        a.lecture_id = resolveLectureId stateAlice.db "CS101")).length = 1) :=
  ⟨rfl, by decide,
   check_in_twice_recorded_then_already verifierMatch stateAlice studentAlice
     "CS101" "Intro" "Intro" 7 "T1" "D1" "T2" "D1" rfl (by decide) (by decide)
     (by decide)⟩

/-- C2 amended: in every state reachable from the fresh store by the public
operations, the attendances table holds at most one row per pair of
student_id and lecture_id; the check-in path obtains this with a separate
SELECT-then-INSERT over a table whose DDL declares no UNIQUE constraint,
not with an atomic conditional insert. -/
theorem attendance_pair_unique_sequential :
    (∀ ops : List Op, AtMostOnePerPair (run initState ops).db.attendances) ∧
    attendancesUniqueConstraints = [] ∧
    checkInDedupeSql =
      [(SqlKind.select, "attendances"), (SqlKind.insert, "attendances")] :=
  ⟨fun ops => run_preserves ops initState List.Pairwise.nil, rfl, rfl⟩

/-- C2 counterexample: the schema transcribed from init_db declares no
UNIQUE constraint on the attendances table at all, so the dedupe cannot be
the unique-constraint-backed atomic conditional insert the claim asserts. -/
theorem no_atomic_conditional_dedupe : ¬hasAtomicConditionalInsert := by
  intro h
  obtain ⟨cols, hmem, _⟩ := h
  simp [attendancesUniqueConstraints] at hmem

/-- C8: the dashboard attendance listing is sorted ascending by the TEXT
timestamp and is a permutation of the joined rows of the lecture; on the
fixture with three check-ins at strictly increasing timestamps it returns
them exactly in that order. -/
theorem list_attendance_sorted_ascending :
    (∀ (db : DB) (lid : Nat),
      List.Sorted
        (fun r₁ r₂ : AttendanceRow => textLe r₁.timestamp r₂.timestamp = true)
        (list_attendance db lid) ∧
      List.Perm (list_attendance db lid) (attendanceJoin db lid)) ∧
    (textLe "2025-09-05T09:00" "2025-09-05T09:01" = true ∧
      ("2025-09-05T09:00" : String) ≠ "2025-09-05T09:01") ∧
    (textLe "2025-09-05T09:01" "2025-09-05T09:02" = true ∧
      ("2025-09-05T09:01" : String) ≠ "2025-09-05T09:02") ∧
    list_attendance dbThreeCheckins 1 =
      [⟨"2025-09-05T09:00", "S1", "Ann"⟩, ⟨"2025-09-05T09:01", "S2", "Bob"⟩,
       ⟨"2025-09-05T09:02", "S3", "Cal"⟩] := by
  refine ⟨?_, ⟨by decide, by decide⟩, ⟨by decide, by decide⟩, by decide⟩
  intro db lid
  haveI : IsTrans AttendanceRow
      (fun r₁ r₂ => textLe r₁.timestamp r₂.timestamp = true) :=
    ⟨fun a b c h₁ h₂ => textLe_trans _ _ _ h₁ h₂⟩
  haveI : IsTotal AttendanceRow
      (fun r₁ r₂ => textLe r₁.timestamp r₂.timestamp = true) :=
    ⟨fun a b => textLe_total _ _⟩
  exact ⟨List.sorted_insertionSort _ _, List.perm_insertionSort _ _⟩

/-- C9: the dashboard lecture listing is sorted most recent date first and
is a permutation of the lectures table; the Dashboard branch never changes
the state; on the fixture with three dated lectures it returns them newest
first. -/
theorem list_lectures_sorted_descending :
    (∀ db : DB,
      List.Sorted (fun l₁ l₂ : Lecture => textLe l₂.date l₁.date = true)
        (list_lectures db) ∧
      List.Perm (list_lectures db) db.lectures) ∧
    (∀ s : State, applyOp s Op.dashboard = s) ∧
    list_lectures dbThreeLectures =
      [⟨2, "B", "b", "2025-09-03"⟩, ⟨3, "C", "c", "2025-09-02"⟩,
       ⟨1, "A", "a", "2025-09-01"⟩] := by
  refine ⟨?_, fun s => rfl, by decide⟩
  intro db
  haveI : IsTrans Lecture (fun l₁ l₂ => textLe l₂.date l₁.date = true) :=
    ⟨fun a b c h₁ h₂ => textLe_trans _ _ _ h₂ h₁⟩
  haveI : IsTotal Lecture (fun l₁ l₂ => textLe l₂.date l₁.date = true) :=
    ⟨fun a b => textLe_total _ _⟩
  exact ⟨List.sorted_insertionSort _ _, List.perm_insertionSort _ _⟩

end ProjectSadiq
